import Mathlib

/-!
Verification of the gobank banking REST API (Go sources `api.go`, `storage.go`)
against its natural-language specification.

The Go program is shallowly embedded: the Postgres-backed store becomes a pure
state machine over a list of rows plus the serial-sequence counters of the
`account` table; HTTP handlers become functions from the decoded pieces of a
request (method, `{id}` path segment, decoded JSON body) to an explicit outcome
type; the JWT middleware becomes a function over an abstract token whose
signature validity is a boolean and whose claims are an association list.
Machine integers are modelled as unbounded `Int` (all values involved are small;
no arithmetic in the source can overflow on realistic inputs).
-/

namespace GoBank

/-- The `Account` row type (`types.go` field layout as used by `scanIntoAccount`
in storage.go:150-162: id, first_name, last_name, number, balance, created_at).
`CreateAt` (the timestamp) is modelled as an integer. -/
structure Account where
  ID : Int
  FirstName : String
  LastName : String
  Number : Int
  Balance : Int
  CreateAt : Int
deriving Repr, DecidableEq

/-- `CreateAccountRequest`: the decoded JSON body of POST `/account` and
PUT `/account/{id}`. -/
structure CreateAccountRequest where
  FirstName : String
  LastName : String
deriving Repr, DecidableEq

/-- `TransferRequest`: the decoded JSON body of PUT `/transfer`. -/
structure TransferRequest where
  ToAccount : Int
  Amount : Int
deriving Repr, DecidableEq

/-- State of the `account` table created by `createTableAccount`
(storage.go:43-55): the rows in backend order, plus the next value of each of
the three `serial` sequences declared by the schema (`id serial primary key`,
`number serial`, `balance serial`).  A `serial` default fires only when an
insert omits that column. -/
structure StoreState where
  idSeq : Int
  numberSeq : Int
  balanceSeq : Int
  rows : List Account
deriving Repr, DecidableEq

/-- The freshly created table: empty, every sequence at its Postgres start
value 1. -/
def StoreState.init : StoreState :=
  { idSeq := 1, numberSeq := 1, balanceSeq := 1, rows := [] }

/-- `GetAccountByID` (storage.go:76-86): `select * from account where id = $1`,
return the first matching row, else the error `account %d not found`. -/
def GetAccountByID (st : StoreState) (id : Int) : Except String Account :=
  match st.rows.find? (fun a => a.ID == id) with
  | some a => .ok a
  | none => .error ("account " ++ toString id ++ " not found")

/-- `GetAccounts` (storage.go:57-74): `select * from account`, all rows. -/
def GetAccounts (st : StoreState) : Except String (List Account) :=
  .ok st.rows

/-- `CreateAccount` (storage.go:88-107): an insert that explicitly lists the
columns `first_name, last_name, number, balance, created_at` and binds them to
the fields of the `Account` argument.  The column `id` is omitted, so it alone
draws from its serial sequence; `number` and `balance` are explicitly supplied,
so their serial defaults do not fire and their sequences do not advance. -/
def CreateAccount (st : StoreState) (account : Account) : StoreState :=
  { st with
    idSeq := st.idSeq + 1,
    rows := st.rows ++ [{ account with ID := st.idSeq }] }

/-- `UpdateAccount` (storage.go:109-125): `update account set first_name = $2,
last_name = $3 where id = $1`, then re-read the row by id; the error
`account %d not found` when the re-read finds nothing. -/
def UpdateAccount (st : StoreState) (account : Account) :
    StoreState × Except String Account :=
  let st2 : StoreState :=
    { st with
      rows := st.rows.map (fun a =>
        if a.ID == account.ID then
          { a with FirstName := account.FirstName, LastName := account.LastName }
        else a) }
  (st2, GetAccountByID st2 account.ID)

/-- `DeleteAccount` (storage.go:127-130): `delete from account where id = $1`
and nothing else — no existence check; the returned error is the query error
only, which the pure model never produces (`none`). -/
def DeleteAccount (st : StoreState) (id : Int) : StoreState × Option String :=
  ({ st with rows := st.rows.filter (fun a => !(a.ID == id)) }, none)

/-- `TransferToAccount` (storage.go:132-148): `update account set balance = $1
where id = $2` with `$1 = detail.Amount`, `$2 = detail.ToAccount`, then re-read
the row by `detail.ToAccount`; the error `account %d not found` when the
re-read finds nothing. -/
def TransferToAccount (st : StoreState) (detail : TransferRequest) :
    StoreState × Except String Account :=
  let st2 : StoreState :=
    { st with
      rows := st.rows.map (fun a =>
        if a.ID == detail.ToAccount then { a with Balance := detail.Amount }
        else a) }
  (st2, GetAccountByID st2 detail.ToAccount)

/-! ## HTTP layer (api.go) -/

/-- Decimal digit test, as used by Go's `strconv.Atoi`. -/
def isDigit (c : Char) : Bool :=
  '0' ≤ c && c ≤ '9'

/-- Value of a list of decimal digits. -/
def digitsToNat (l : List Char) : Nat :=
  l.foldl (fun n c => n * 10 + (c.toNat - '0'.toNat)) 0

/-- Go's `strconv.Atoi`: an optional single `+`/`-` sign followed by at least
one decimal digit and nothing else; `none` on any syntax error (`Atoi` also
returns the value 0 in that case, which `getId` below propagates).  Bit-size
range clamping is not modelled (ids in scope are small). -/
def atoiCore (s : String) : Option Int :=
  match s.toList with
  | [] => none
  | c :: rest =>
    let digits := if c = '-' || c = '+' then rest else c :: rest
    if digits = [] then none
    else if digits.all isDigit then
      some (if c = '-' then -(digitsToNat digits : Int) else (digitsToNat digits : Int))
    else none

/-- `getId` (api.go:240-247): `strconv.Atoi` on the `{id}` path segment; on
failure the pair of Atoi's zero value and the error `Invalid id given %s`. -/
def getId (idStr : String) : Int × Option String :=
  match atoiCore idStr with
  | some id => (id, none)
  | none => (0, some ("Invalid id given " ++ idStr))

/-- The JSON bodies the gateway writes with `WriteJSON`. -/
inductive Body where
  | apiError (msg : String)
  | account (a : Account)
  | accounts (l : List Account)
  | deleted (id : Int)
  | created (req : CreateAccountRequest)
deriving Repr, DecidableEq

/-- An HTTP response: status code plus JSON body. -/
structure Response where
  status : Nat
  body : Body
deriving Repr, DecidableEq

/-- Outcome of one `apiFunc` handler call: it either wrote a response via
`WriteJSON` (and returned that call's nil error), or returned a non-nil error
without writing, or returned nil without writing anything (`net/http` then
falls through to an implicit empty 200 — no JSON error body is produced). -/
inductive HandlerResult where
  | wrote (st : StoreState) (r : Response)
  | failed (st : StoreState) (e : String)
  | nothingWritten (st : StoreState)
deriving Repr, DecidableEq

/-- `makeHandleFunc` (api.go:233-239): a non-nil handler error becomes a 400
response with body `ApiError{Error: err.Error()}`; otherwise whatever the
handler did stands. -/
inductive HttpOutcome where
  | response (st : StoreState) (r : Response)
  | noResponse (st : StoreState)
deriving Repr, DecidableEq

def makeHandleFunc (res : HandlerResult) : HttpOutcome :=
  match res with
  | .wrote st r => .response st r
  | .failed st e => .response st { status := 400, body := .apiError e }
  | .nothingWritten st => .noResponse st

/-- `handleGetAccount` (api.go:71-78): list all accounts, 200. -/
def handleGetAccount (st : StoreState) : HandlerResult :=
  match GetAccounts st with
  | .error e => .failed st e
  | .ok accounts => .wrote st { status := 200, body := .accounts accounts }

/-- `handleGetAccountByID` (api.go:80-91): parse the id, fetch, 200 with the
account; any error is returned to `makeHandleFunc`. -/
def handleGetAccountByID (st : StoreState) (idStr : String) : HandlerResult :=
  match getId idStr with
  | (_, some e) => .failed st e
  | (id, none) =>
    match GetAccountByID st id with
    | .error e => .failed st e
    | .ok a => .wrote st { status := 200, body := .account a }

/-- Modelled from the spec: `NewAccount` lives in types.go, which is not under
src/.  Per §3 of the spec, `firstName`/`lastName` are the user-supplied values
and `number`, `balance`, `createdAt` are derived server-side; the derivation is
not given, so the derived values are taken as parameters here.  The `id` field
is not meaningful before insertion (the store assigns it). -/
def NewAccount (firstName lastName : String) (number balance createAt : Int) :
    Account :=
  { ID := 0, FirstName := firstName, LastName := lastName,
    Number := number, Balance := balance, CreateAt := createAt }

/-- `handleCreateAccount` (api.go:94-113): decode the body, build the account
via `NewAccount`, insert it, mint a token (printed to the operator console
only), and echo the request back with 200.  `number`, `balance`, `createAt`
stand for the values `NewAccount` derives (see `NewAccount`). -/
def handleCreateAccount (st : StoreState)
    (body : Except String CreateAccountRequest)
    (number balance createAt : Int) : HandlerResult :=
  match body with
  | .error e => .failed st e
  | .ok req =>
    let account := NewAccount req.FirstName req.LastName number balance createAt
    let st2 := CreateAccount st account
    .wrote st2 { status := 200, body := .created req }

/-- `handleUpdateAccount` (api.go:116-133): parse the id, decode the body,
build an `Account` whose other fields are Go zero values, call the store's
`UpdateAccount`.  On a store error the source returns `nil` (api.go:129), so
nothing is written and no error reaches `makeHandleFunc`. -/
def handleUpdateAccount (st : StoreState) (idStr : String)
    (body : Except String CreateAccountRequest) : HandlerResult :=
  match getId idStr with
  | (_, some e) => .failed st e
  | (id, none) =>
    match body with
    | .error e => .failed st e
    | .ok req =>
      let account : Account :=
        { ID := id, FirstName := req.FirstName, LastName := req.LastName,
          Number := 0, Balance := 0, CreateAt := 0 }
      match UpdateAccount st account with
      | (st2, .error _) => .nothingWritten st2
      | (st2, .ok updated) =>
        .wrote st2 { status := 200, body := .account updated }

/-- `handleDeleteAccount` (api.go:136-145): parse the id, delete, 200 with
`{"deleted": id}`. -/
def handleDeleteAccount (st : StoreState) (idStr : String) : HandlerResult :=
  match getId idStr with
  | (_, some e) => .failed st e
  | (id, none) =>
    match DeleteAccount st id with
    | (st2, some e) => .failed st2 e
    | (st2, none) => .wrote st2 { status := 200, body := .deleted id }

/-- `handleTransferToAccount` (api.go:148-161): decode the body, run the
store's transfer, 200 with the re-read account. -/
def handleTransferToAccount (st : StoreState)
    (body : Except String TransferRequest) : HandlerResult :=
  match body with
  | .error e => .failed st e
  | .ok transfer =>
    match TransferToAccount st transfer with
    | (st2, .error e) => .failed st2 e
    | (st2, .ok a) => .wrote st2 { status := 200, body := .account a }

/-- `handleAccount` (api.go:38-47): method dispatch for `/account`. -/
def handleAccount (st : StoreState) (method : String)
    (body : Except String CreateAccountRequest)
    (number balance createAt : Int) : HandlerResult :=
  if method = "GET" then handleGetAccount st
  else if method = "POST" then handleCreateAccount st body number balance createAt
  else .failed st ("Method not allowed " ++ method)

/-- `handleAccountWithId` (api.go:48-59): method dispatch for
`/account/{id}`. -/
def handleAccountWithId (st : StoreState) (method idStr : String)
    (body : Except String CreateAccountRequest) : HandlerResult :=
  if method = "GET" then handleGetAccountByID st idStr
  else if method = "PUT" then handleUpdateAccount st idStr body
  else if method = "DELETE" then handleDeleteAccount st idStr
  else .failed st ("Method not allowed " ++ method)

/-- `handleTransfer` (api.go:61-68): method dispatch for `/transfer`. -/
def handleTransfer (st : StoreState) (method : String)
    (body : Except String TransferRequest) : HandlerResult :=
  if method = "PUT" then handleTransferToAccount st body
  else .failed st ("Method not allowed " ++ method)

/-! ## JWT layer (api.go:163-220) -/

/-- A decoded JWT claim value.  JSON numbers decode to Go `float64`; all
numbers the program handles are small integers, so `num` carries an `Int`
(for which the `int64(... .(float64))` conversion in api.go:191 is exact).
`str` stands for any claim whose dynamic type is not `float64`, on which the
unchecked type assertion `.(float64)` panics. -/
inductive ClaimValue where
  | num (n : Int)
  | str (s : String)
deriving Repr, DecidableEq

/-- A parsed token as `validateJWT` (api.go:202-210) sees it.  `validSig` is
true exactly when the `x-jwt-token` header held a well-formed JWT signed with
an HMAC-family method under `JWT_SECRET`; a missing header gives the empty
string, which fails parsing, so it is a token with `validSig = false`.
`token.Valid` (api.go:175) holds exactly when parsing and verification
succeeded, so it coincides with `validSig`. -/
structure Token where
  validSig : Bool
  claims : List (String × ClaimValue)
deriving Repr, DecidableEq

/-- `claims[key]` on a `jwt.MapClaims`: the value stored under `key`, or the
nil interface when absent. -/
def lookupClaim (claims : List (String × ClaimValue)) (key : String) :
    Option ClaimValue :=
  (claims.find? (fun p => p.1 == key)).map Prod.snd

/-- `permissionDenied` (api.go:163-165): 403 with `ApiError{Error: "Invalid
token"}`, serialized as `{"Error":"Invalid token"}`. -/
def permissionDenied : Response :=
  { status := 403, body := .apiError "Invalid token" }

/-- `createJWT` (api.go:212-220): the claims map of the minted token — key
`"ExpiresAt"` with 15000 and key `"AccountNumber"` with the account's
number. -/
def createJWTClaims (account : Account) : List (String × ClaimValue) :=
  [("ExpiresAt", .num 15000), ("AccountNumber", .num account.Number)]

/-- `createJWT` (api.go:212-220): mint a token with `createJWTClaims`, signed
HS256 (an HMAC method) with `JWT_SECRET`, hence a token `validateJWT`
accepts. -/
def createJWT (account : Account) : Token :=
  { validSig := true, claims := createJWTClaims account }

/-- Outcome of the `withJWTAuth` middleware for one request. -/
inductive GateOutcome where
  /-- `permissionDenied` was written and the wrapped handler never ran. -/
  | denied (r : Response)
  /-- The unchecked type assertion `claims["accountNumber"].(float64)`
  (api.go:191) was applied to a nil interface or a non-`float64` value: the
  goroutine panics; the wrapped handler never runs. -/
  | panicked
  /-- All checks passed (api.go:196): the wrapped handler is invoked. -/
  | proceed
deriving Repr, DecidableEq

/-- `withJWTAuth` (api.go:167-198): read `x-jwt-token`, parse and verify it
(`validateJWT` plus the `token.Valid` check — both captured by `validSig`);
then `userID, _ := getId(r)` with the parse error discarded (api.go:180; the
`if err != nil` on api.go:181 re-tests the already-nil `validateJWT` error and
never fires); then look the account up by that id, denying on failure; then
compare the account's `Number` with the `accountNumber` claim, extracted by an
unchecked `float64` type assertion; deny on mismatch, else run the handler. -/
def withJWTAuth (st : StoreState) (token : Token) (idStr : String) :
    GateOutcome :=
  if !token.validSig then .denied permissionDenied
  else
    let userID := (getId idStr).1
    match GetAccountByID st userID with
    | .error _ => .denied permissionDenied
    | .ok account =>
      match lookupClaim token.claims "accountNumber" with
      | some (.num n) =>
        if account.Number ≠ n then .denied permissionDenied
        else .proceed
      | _ => .panicked

/-! ## Concrete fixtures used by witnesses -/

/-- A concrete stored account. -/
def demoAccount : Account :=
  { ID := 1, FirstName := "Jane", LastName := "Doe",
    Number := 10, Balance := 3, CreateAt := 0 }

/-- A concrete store holding exactly `demoAccount`. -/
def demoStore : StoreState :=
  { idSeq := 2, numberSeq := 1, balanceSeq := 1, rows := [demoAccount] }

/-- A validly signed token whose `accountNumber` claim is 5, which differs
from `demoAccount.Number = 10`. -/
def demoToken : Token :=
  { validSig := true, claims := [("accountNumber", .num 5)] }

/-! ## Invariant: ids assigned by the store are positive

The `id` column is a `serial primary key`; its sequence starts at 1 and the
insert never supplies `id`, so no reachable store state contains a row with
`id ≤ 0`.  This supports the store-lookup hypothesis of the gate theorems. -/

theorem createAccount_preserves_positive_ids (st : StoreState) (account : Account)
    (hseq : 1 ≤ st.idSeq) (hrows : ∀ a ∈ st.rows, 1 ≤ a.ID) :
    1 ≤ (CreateAccount st account).idSeq ∧
    ∀ a ∈ (CreateAccount st account).rows, 1 ≤ a.ID := by
  constructor
  · exact le_trans hseq (by simp [CreateAccount])
  · intro a ha
    simp only [CreateAccount, List.mem_append, List.mem_singleton] at ha
    rcases ha with ha | ha
    · exact hrows a ha
    · subst ha; exact hseq

/-! ## Claims about the authorization gate -/

/-- C1: for a request to `/account/{id}` carrying a validly HMAC-signed token
whose embedded `accountNumber` claim does not numerically equal the `number`
field of the account stored under the path id, the gate responds 403 with body
`{"Error":"Invalid token"}` and does not invoke the handler. -/
theorem C1_mismatched_claim_denied (st : StoreState) (t : Token) (idStr : String)
    (n : Int) (account : Account)
    (hsig : t.validSig = true)
    (hclaim : lookupClaim t.claims "accountNumber" = some (.num n))
    (hacct : GetAccountByID st (getId idStr).1 = .ok account)
    (hne : account.Number ≠ n) :
    withJWTAuth st t idStr =
      .denied { status := 403, body := .apiError "Invalid token" } := by
  unfold withJWTAuth
  simp [hsig, hacct, hclaim, hne, permissionDenied]

theorem C1_witness :
    ((demoToken.validSig = true) ∧
      lookupClaim demoToken.claims "accountNumber" = some (.num 5) ∧
      GetAccountByID demoStore (getId "1").1 = .ok demoAccount ∧
      demoAccount.Number ≠ 5) ∧
    withJWTAuth demoStore demoToken "1" =
      .denied { status := 403, body := .apiError "Invalid token" } :=
  ⟨⟨rfl, rfl, rfl, by decide⟩,
    C1_mismatched_claim_denied demoStore demoToken "1" 5 demoAccount rfl rfl rfl
      (by decide)⟩

/-- C2: `createJWT` stores the account number under claim key
`"AccountNumber"`, while `withJWTAuth` extracts claim key `"accountNumber"`
with an unchecked `float64` type assertion; hence every minted token lacks the
extracted claim, the assertion is applied to an absent value, and no minted
token can ever make the gate invoke the wrapped handler. -/
theorem C2_minted_token_never_passes_gate (account : Account) (st : StoreState)
    (idStr : String) :
    lookupClaim (createJWT account).claims "accountNumber" = none ∧
    withJWTAuth st (createJWT account) idStr ≠ .proceed := by
  have hlook : lookupClaim (createJWTClaims account) "accountNumber" = none := by
    simp [createJWTClaims, lookupClaim]
  refine ⟨hlook, ?_⟩
  cases hga : GetAccountByID st (getId idStr).1 with
  | error e => simp [withJWTAuth, createJWT, hga]
  | ok a =>
    simp only [withJWTAuth, createJWT, hga, Bool.not_true, Bool.false_eq_true,
      if_false, hlook]
    simp

/-- C5: on a token-gated `/account/{id}` route whose `{id}` segment is not a
base-10 integer, the gate responds 403 with the generic invalid-token body,
whatever the token: the parse error is discarded (api.go:180), the lookup runs
with Atoi's zero value 0, and — since the serial id sequence never assigns 0 —
that lookup fails, so `permissionDenied` is written at some internal step. -/
theorem C5_malformed_id_denied (st : StoreState) (t : Token) (idStr : String)
    (hbad : atoiCore idStr = none)
    (hpos : ∀ a ∈ st.rows, 1 ≤ a.ID) :
    withJWTAuth st t idStr =
      .denied { status := 403, body := .apiError "Invalid token" } := by
  have hid : getId idStr = (0, some ("Invalid id given " ++ idStr)) := by
    simp [getId, hbad]
  have hfind : st.rows.find? (fun a => a.ID == (0 : Int)) = none := by
    apply List.find?_eq_none.mpr
    intro a ha
    have := hpos a ha
    simp only [beq_iff_eq]
    omega
  have hga : GetAccountByID st 0 =
      .error ("account " ++ toString (0 : Int) ++ " not found") := by
    simp [GetAccountByID, hfind]
  cases ht : t.validSig with
  | false => simp [withJWTAuth, ht, permissionDenied]
  | true => simp [withJWTAuth, ht, hid, hga, permissionDenied]

theorem C5_witness :
    (atoiCore "abc" = none ∧ ∀ a ∈ demoStore.rows, 1 ≤ a.ID) ∧
    withJWTAuth demoStore demoToken "abc" =
      .denied { status := 403, body := .apiError "Invalid token" } :=
  ⟨⟨rfl, by decide⟩,
    C5_malformed_id_denied demoStore demoToken "abc" rfl (by decide)⟩

/-! ## Claims about the store and handlers -/

/-- C3 (code-bug evidence): on PUT `/account/1` with a valid body against an
empty store, `UpdateAccount` fails with NotFound, but `handleUpdateAccount`
returns `nil` on that error (api.go:129), so nothing is written and
`makeHandleFunc` never produces the 400 response with the error's message that
the spec requires. -/
theorem C3_update_error_swallowed :
    handleUpdateAccount StoreState.init "1"
        (.ok { FirstName := "Jane", LastName := "Doe" }) =
      .nothingWritten StoreState.init ∧
    makeHandleFunc (handleUpdateAccount StoreState.init "1"
        (.ok { FirstName := "Jane", LastName := "Doe" })) =
      .noResponse StoreState.init ∧
    makeHandleFunc (handleUpdateAccount StoreState.init "1"
        (.ok { FirstName := "Jane", LastName := "Doe" })) ≠
      .response StoreState.init
        { status := 400, body := .apiError "account 1 not found" } := by
  refine ⟨rfl, rfl, by decide⟩

/-- C4: `TransferToAccount (toAccount := x, amount := amt)` sets the balance of
every row whose id is `x` to exactly `amt` (absolute overwrite), leaves every
other row untouched, and — when a row with id `x` exists — the subsequent
`GetAccountByID x` (which is also the value the transfer returns) yields an
account whose balance equals `amt`. -/
theorem C4_transfer_overwrite (st : StoreState) (x amt : Int) :
    (∀ acc ∈ (TransferToAccount st { ToAccount := x, Amount := amt }).1.rows,
      acc.ID = x → acc.Balance = amt) ∧
    (∀ acc ∈ st.rows, acc.ID ≠ x →
      acc ∈ (TransferToAccount st { ToAccount := x, Amount := amt }).1.rows) ∧
    (TransferToAccount st { ToAccount := x, Amount := amt }).1.rows.length =
      st.rows.length ∧
    ((∃ acc ∈ st.rows, acc.ID = x) →
      ∃ b, GetAccountByID (TransferToAccount st { ToAccount := x, Amount := amt }).1 x =
          .ok b ∧
        b.Balance = amt ∧
        (TransferToAccount st { ToAccount := x, Amount := amt }).2 = .ok b) := by
  set f : Account → Account :=
    fun a => if a.ID == x then { a with Balance := amt } else a with hf
  have hrows : (TransferToAccount st { ToAccount := x, Amount := amt }).1.rows =
      st.rows.map f := rfl
  have hfID : ∀ a, (f a).ID = a.ID := by
    intro a
    simp only [hf]
    split <;> rfl
  refine ⟨?_, ?_, ?_, ?_⟩
  · intro acc hacc hid
    rw [hrows] at hacc
    obtain ⟨b, hb, hfb⟩ := List.mem_map.mp hacc
    subst hfb
    simp only [hf]
    split
    · rfl
    · rename_i h
      rw [hfID b] at hid
      exact absurd (beq_iff_eq.mpr hid) h
  · intro acc hacc hid
    rw [hrows]
    have hfacc : f acc = acc := by
      simp only [hf]
      exact if_neg (fun h => hid (beq_iff_eq.mp h))
    exact hfacc ▸ List.mem_map_of_mem f hacc
  · rw [hrows]; exact List.length_map _ _
  · rintro ⟨acc, hacc, hid⟩
    have hne : st.rows.find? (fun a => a.ID == x) ≠ none := by
      intro hnone
      have := List.find?_eq_none.mp hnone acc hacc
      simp [hid] at this
    obtain ⟨b0, hb0⟩ := Option.ne_none_iff_exists.mp hne
    have hb0p : (b0.ID == x) = true := by
      have h := List.find?_some hb0.symm
      simpa using h
    have hfind : (st.rows.map f).find? (fun a => a.ID == x) = some (f b0) := by
      rw [List.find?_map]
      have hcomp : ((fun a => a.ID == x) ∘ f) = (fun a => a.ID == x) := by
        funext a
        simp only [Function.comp_apply]
        rw [hfID a]
      rw [hcomp, hb0.symm]
      rfl
    have hok : GetAccountByID
        (TransferToAccount st { ToAccount := x, Amount := amt }).1 x =
        .ok (f b0) := by
      unfold GetAccountByID
      rw [hrows, hfind]
    refine ⟨f b0, hok, ?_, hok⟩
    have hfb0 : f b0 = { b0 with Balance := amt } := by
      simp only [hf]
      exact if_pos hb0p
    rw [hfb0]

theorem C4_witness :
    (∃ acc ∈ demoStore.rows, acc.ID = 1) ∧
    ∃ b, GetAccountByID
        (TransferToAccount demoStore { ToAccount := 1, Amount := 99 }).1 1 =
        .ok b ∧
      b.Balance = 99 ∧
      (TransferToAccount demoStore { ToAccount := 1, Amount := 99 }).2 = .ok b :=
  ⟨⟨demoAccount, by decide, by decide⟩,
    (C4_transfer_overwrite demoStore 1 99).2.2.2 ⟨demoAccount, by decide, by decide⟩⟩

/-- A concrete `Account` value whose `Number` and `Balance` differ from the
store's sequence counters, exhibiting what `CreateAccount` inserts. -/
def c6Account : Account :=
  { ID := 0, FirstName := "x", LastName := "y",
    Number := 42, Balance := 7, CreateAt := 3 }

/-- A store whose `number` and `balance` sequences are at 5 and 9. -/
def c6Store : StoreState :=
  { idSeq := 1, numberSeq := 5, balanceSeq := 9, rows := [] }

/-- C6 counterexample: the insert of `CreateAccount` (storage.go:88-107) lists
`number` and `balance` explicitly and binds them to the supplied `Account`
value, so the stored row carries the caller-supplied 42 and 7, not the serial
sequence values 5 and 9 — refuting the claim that `number` and `balance` are
auto-assigned by the sequence mechanism rather than taken from the insert's
supplied values. -/
theorem C6_counterexample :
    (CreateAccount c6Store c6Account).rows = [{ c6Account with ID := 1 }] ∧
    c6Account.Number = 42 ∧ c6Store.numberSeq = 5 ∧
    c6Account.Balance = 7 ∧ c6Store.balanceSeq = 9 ∧
    ¬ (∀ acc ∈ (CreateAccount c6Store c6Account).rows,
        acc.Number = c6Store.numberSeq ∧ acc.Balance = c6Store.balanceSeq) := by
  refine ⟨rfl, rfl, rfl, rfl, rfl, ?_⟩
  intro h
  have := h { c6Account with ID := 1 } (by decide)
  simp [c6Account, c6Store] at this

/-- C6 amended: on `CreateAccount`, only `id` is auto-assigned from its serial
sequence (the insert omits the `id` column); the stored row's `number` and
`balance` are taken verbatim from the supplied `Account` value, and the
`number`/`balance` serial sequences are left untouched. -/
theorem C6_insert_takes_supplied_number_balance (st : StoreState)
    (account : Account) :
    ∃ row,
      (CreateAccount st account).rows = st.rows ++ [row] ∧
      row.ID = st.idSeq ∧
      row.Number = account.Number ∧
      row.Balance = account.Balance ∧
      row.FirstName = account.FirstName ∧
      row.LastName = account.LastName ∧
      row.CreateAt = account.CreateAt ∧
      (CreateAccount st account).idSeq = st.idSeq + 1 ∧
      (CreateAccount st account).numberSeq = st.numberSeq ∧
      (CreateAccount st account).balanceSeq = st.balanceSeq :=
  ⟨{ account with ID := st.idSeq },
    rfl, rfl, rfl, rfl, rfl, rfl, rfl, rfl, rfl, rfl⟩

/-- C7: `DeleteAccount` performs no existence check: on an id matching no row
it succeeds and leaves the store unchanged; its error component is always
`none`; and it is idempotent — a second delete of the same id is a no-op. -/
theorem C7_delete_idempotent_no_error (st : StoreState) (id : Int) :
    ((∀ acc ∈ st.rows, acc.ID ≠ id) → DeleteAccount st id = (st, none)) ∧
    (DeleteAccount st id).2 = none ∧
    DeleteAccount (DeleteAccount st id).1 id = DeleteAccount st id := by
  refine ⟨?_, rfl, ?_⟩
  · intro hnone
    have hfilter : st.rows.filter (fun a => !(a.ID == id)) = st.rows := by
      apply List.filter_eq_self.mpr
      intro a ha
      simp only [Bool.not_eq_true', beq_eq_false_iff_ne]
      exact hnone a ha
    simp only [DeleteAccount, hfilter]
  · simp only [DeleteAccount, Prod.mk.injEq, and_true]
    congr 1
    simp [List.filter_filter]

theorem C7_witness :
    (∀ acc ∈ demoStore.rows, acc.ID ≠ 77) ∧
    DeleteAccount demoStore 77 = (demoStore, none) :=
  ⟨by decide, (C7_delete_idempotent_no_error demoStore 77).1 (by decide)⟩

/-- C8: `GetAccountByID` fails with the NotFound error `account %d not found`
for every id matching no stored row, and returns the matching account when
exactly one row has that id. -/
theorem C8_get_by_id_notfound_or_unique (st : StoreState) (id : Int) :
    ((∀ acc ∈ st.rows, acc.ID ≠ id) →
      GetAccountByID st id =
        .error ("account " ++ toString id ++ " not found")) ∧
    (∀ acc ∈ st.rows, acc.ID = id →
      (∀ b ∈ st.rows, b.ID = id → b = acc) →
      GetAccountByID st id = .ok acc) := by
  constructor
  · intro hnone
    have hfind : st.rows.find? (fun a => a.ID == id) = none := by
      apply List.find?_eq_none.mpr
      intro a ha
      simpa using hnone a ha
    simp [GetAccountByID, hfind]
  · intro acc hacc hid huniq
    have hne : st.rows.find? (fun a => a.ID == id) ≠ none := by
      intro hnone
      have := List.find?_eq_none.mp hnone acc hacc
      simp [hid] at this
    obtain ⟨b0, hb0⟩ := Option.ne_none_iff_exists.mp hne
    have hb0mem : b0 ∈ st.rows := List.mem_of_find?_eq_some hb0.symm
    have hb0p : (b0.ID == id) = true := by
      have h := List.find?_some hb0.symm
      simpa using h
    have hb0acc : b0 = acc := huniq b0 hb0mem (beq_iff_eq.mp hb0p)
    simp [GetAccountByID, hb0.symm, hb0acc]

theorem C8_witness :
    (demoAccount ∈ demoStore.rows ∧ demoAccount.ID = 1) ∧
    GetAccountByID demoStore 1 = .ok demoAccount :=
  ⟨⟨by decide, rfl⟩,
    (C8_get_by_id_notfound_or_unique demoStore 1).2 demoAccount (by decide) rfl
      (by decide)⟩

/-- C9: once a request to `/account/{id}` reaches the method dispatcher (i.e.
it passed the authorization gate), a `{id}` segment that is not a base-10
integer makes every supported method (GET, PUT, DELETE) return the error
`Invalid id given %s` — naming the invalid value — which `makeHandleFunc` maps
to a 400 JSON error body; the store is untouched. -/
theorem C9_invalid_id_400 (st : StoreState) (method idStr : String)
    (body : Except String CreateAccountRequest)
    (hbad : atoiCore idStr = none)
    (hm : method = "GET" ∨ method = "PUT" ∨ method = "DELETE") :
    makeHandleFunc (handleAccountWithId st method idStr body) =
      .response st
        { status := 400, body := .apiError ("Invalid id given " ++ idStr) } := by
  have hid : getId idStr = (0, some ("Invalid id given " ++ idStr)) := by
    simp [getId, hbad]
  rcases hm with hm | hm | hm <;> subst hm <;>
    simp [handleAccountWithId, handleGetAccountByID, handleUpdateAccount,
      handleDeleteAccount, hid, makeHandleFunc]

theorem C9_witness :
    (atoiCore "abc" = none ∧ ("GET" : String) = "GET") ∧
    makeHandleFunc (handleAccountWithId demoStore "GET" "abc"
        (.ok { FirstName := "Jane", LastName := "Doe" })) =
      .response demoStore
        { status := 400, body := .apiError "Invalid id given abc" } :=
  ⟨⟨rfl, rfl⟩,
    C9_invalid_id_400 demoStore "GET" "abc"
      (.ok { FirstName := "Jane", LastName := "Doe" }) rfl (Or.inl rfl)⟩

/-- C10: for each routed path, a request whose HTTP method is not in that
path's routing table makes the dispatcher return the error
`Method not allowed %s` — naming the method — which `makeHandleFunc` maps to a
400 (not 405) JSON error body; the store is untouched. -/
theorem C10_method_not_allowed_400 (st : StoreState) (m idStr : String)
    (cbody : Except String CreateAccountRequest)
    (tbody : Except String TransferRequest)
    (number balance createAt : Int) :
    (m ≠ "GET" → m ≠ "POST" →
      makeHandleFunc (handleAccount st m cbody number balance createAt) =
        .response st
          { status := 400, body := .apiError ("Method not allowed " ++ m) }) ∧
    (m ≠ "GET" → m ≠ "PUT" → m ≠ "DELETE" →
      makeHandleFunc (handleAccountWithId st m idStr cbody) =
        .response st
          { status := 400, body := .apiError ("Method not allowed " ++ m) }) ∧
    (m ≠ "PUT" →
      makeHandleFunc (handleTransfer st m tbody) =
        .response st
          { status := 400, body := .apiError ("Method not allowed " ++ m) }) := by
  refine ⟨?_, ?_, ?_⟩
  · intro h1 h2
    simp [handleAccount, h1, h2, makeHandleFunc]
  · intro h1 h2 h3
    simp [handleAccountWithId, h1, h2, h3, makeHandleFunc]
  · intro h1
    simp [handleTransfer, h1, makeHandleFunc]

theorem C10_witness :
    (("GET" : String) ≠ "PUT") ∧
    makeHandleFunc (handleTransfer demoStore "GET"
        (.ok { ToAccount := 1, Amount := 2 })) =
      .response demoStore
        { status := 400, body := .apiError "Method not allowed GET" } :=
  ⟨by decide,
    (C10_method_not_allowed_400 demoStore "GET" "1"
        (.ok { FirstName := "a", LastName := "b" })
        (.ok { ToAccount := 1, Amount := 2 }) 0 0 0).2.2 (by decide)⟩

end GoBank
